import Mathlib

/-!
Verification of the litestar extension of the advanced-alchemy repository.

The development embeds the session lifecycle logic of
`advanced_alchemy/extensions/litestar/plugins/init/config/asyncio.py`,
the configuration validation of
`advanced_alchemy/extensions/litestar/plugins/init/plugin.py`,
and the filter-dependency machinery of the providers module, and proves
the stated properties of the specification against these embeddings.

Sessions are identified by natural numbers; the ASGI scope state is an
association list from string keys to session identifiers; handler
executions are summarised by a trace recording which session operations
ran and the resulting scope state.
-/

namespace AdvancedAlchemy

/-- Modelled from the spec: default key under which the session is stored in
the ASGI scope state (constant `SESSION_SCOPE_KEY` of the config.common
module, which is not part of the sources under review). -/
def SESSION_SCOPE_KEY : String := "_sqlalchemy_db_session"

/-- ASGI message type of an HTTP response start event (litestar constant
`HTTP_RESPONSE_START`). -/
def HTTP_RESPONSE_START : String := "http.response.start"

/-- Modelled from the spec: the session-terminus ASGI events (constant
`SESSION_TERMINUS_ASGI_EVENTS` of the config.common module, which is not
part of the sources under review): the events on which a stored session
is closed and removed from the scope state. -/
def SESSION_TERMINUS_ASGI_EVENTS : List String :=
  [HTTP_RESPONSE_START, "http.disconnect", "websocket.disconnect", "websocket.close"]

/-- Scope state: a finite map from string keys to session identifiers,
embedded as an association list without duplicate keys by construction
of the update operations. -/
abbrev Scope := List (String × Nat)

/-- Modelled from the spec: scope-state helper `get_aa_scope_state`, the
lookup of the value stored under a key of the ASGI scope state. -/
def get_aa_scope_state (scope : Scope) (key : String) : Option Nat :=
  (scope.find? (fun p => p.1 = key)).map (fun p => p.2)

/-- Modelled from the spec: scope-state helper `set_aa_scope_state`, the
update storing a value under a key of the ASGI scope state. -/
def set_aa_scope_state (scope : Scope) (key : String) (v : Nat) : Scope :=
  (key, v) :: scope.filter (fun p => ¬ p.1 = key)

/-- Modelled from the spec: scope-state helper `delete_aa_scope_state`, the
removal of the entry stored under a key of the ASGI scope state. -/
def delete_aa_scope_state (scope : Scope) (key : String) : Scope :=
  scope.filter (fun p => ¬ p.1 = key)

/-- ASGI message: a type tag, and the HTTP status code that a response
start message carries (the handlers read the status only on response
start messages, so carrying it on every message is harmless). -/
structure Message where
  type : String
  status : Int
deriving DecidableEq, Repr

/-- Trace of one before-send handler execution: whether the stored session
was committed, rolled back, closed, the resulting scope state, and whether
an exception propagates out of the handler. -/
structure HandlerTrace where
  committed : Bool
  rolledBack : Bool
  closed : Bool
  scope : Scope
  raised : Bool
deriving DecidableEq, Repr

/-- Handler produced by `default_handler_maker` (asyncio.py lines 43 to 66):
when a session is stored under the scope key and the message type is a
session-terminus ASGI event, the session is closed and deleted from the
scope state; nothing else happens. -/
def defaultHandler (session_scope_key : String) (message : Message) (scope : Scope) :
    HandlerTrace :=
  let session := get_aa_scope_state scope session_scope_key
  let cleanup := session.isSome && SESSION_TERMINUS_ASGI_EVENTS.contains message.type
  ⟨false, false, cleanup,
    if cleanup then delete_aa_scope_state scope session_scope_key else scope, false⟩

/-- Commit range of the autocommit handler (asyncio.py line 101):
`range(200, 400 if commit_on_redirect else 300)`. -/
def inCommitRange (commit_on_redirect : Bool) (status : Int) : Bool :=
  200 ≤ status && status < (if commit_on_redirect then (400 : Int) else 300)

/-- Handler produced by `autocommit_handler_maker` (asyncio.py lines 103 to
124).  The body runs when a session is stored and the message is a response
start: the session is committed when the status is in the commit range or in
the extra commit statuses, and not in the extra rollback statuses; otherwise
it is rolled back.  The flags `commitRaises` and `rollbackRaises` say whether
the respective awaited call raises; the `finally` block closes the session
and deletes it from the scope state whenever the message type is a
session-terminus event and a session is stored, in the exceptional case as
well. -/
def autocommitHandler (commit_on_redirect : Bool)
    (extra_commit_statuses extra_rollback_statuses : List Int)
    (session_scope_key : String) (commitRaises rollbackRaises : Bool)
    (message : Message) (scope : Scope) : HandlerTrace :=
  let session := get_aa_scope_state scope session_scope_key
  let bodyRuns := session.isSome && message.type = HTTP_RESPONSE_START
  let commitCond :=
    (inCommitRange commit_on_redirect message.status
        || extra_commit_statuses.contains message.status)
      && !(extra_rollback_statuses.contains message.status)
  let committed := bodyRuns && commitCond
  let rolledBack := bodyRuns && !commitCond
  let cleanup := session.isSome && SESSION_TERMINUS_ASGI_EVENTS.contains message.type
  ⟨committed, rolledBack, cleanup,
    if cleanup then delete_aa_scope_state scope session_scope_key else scope,
    (committed && commitRaises) || (rolledBack && rollbackRaises)⟩

/-- Python exceptions the embedded code can raise.  `valueError` is the
Python builtin; `improperConfigurationError` is defined by the repository
in advanced_alchemy.exceptions. -/
inductive PyExc
  | valueError (msg : String)
  | improperConfigurationError (msg : String)
deriving DecidableEq, Repr

/-- Predicate selecting the exceptions defined by the repository itself
rather than by the Python builtins. -/
def PyExc.repositoryDefined : PyExc → Bool
  | .valueError _ => false
  | .improperConfigurationError _ => true

/-- Maker `autocommit_handler_maker` (asyncio.py lines 72 to 99): treats a
missing extra status set as empty, raises ValueError when the extra commit
and extra rollback statuses intersect, and otherwise returns the parameters
that determine the handler closure. -/
def autocommit_handler_maker (commit_on_redirect : Bool)
    (extra_commit_statuses extra_rollback_statuses : Option (List Int))
    (session_scope_key : String) :
    Except PyExc (Bool × List Int × List Int × String) :=
  let ec := extra_commit_statuses.getD []
  let er := extra_rollback_statuses.getD []
  if ec.any (fun s => er.contains s) then
    Except.error (PyExc.valueError
      "Extra rollback statuses and commit statuses must not share any status codes")
  else
    Except.ok (commit_on_redirect, ec, er, session_scope_key)

/-- Result of `provide_session`: the returned session, the scope state after
the call, and whether the session maker was invoked. -/
structure ProvideResult where
  session : Nat
  scope : Scope
  makerInvoked : Bool
deriving DecidableEq, Repr

/-- Method `SQLAlchemyAsyncConfig.provide_session` (asyncio.py lines 234 to
254): looks the session up in the scope state; when absent, reads the session
maker from the application state under the session maker key (a missing
maker is a KeyError, embedded as `none`), invokes it, and stores the new
session in the scope state.  The application state maps keys to maker
identifiers, and `makerFn` gives the session each maker produces when
invoked. -/
def provide_session (session_maker_app_state_key session_scope_key : String)
    (state : List (String × Nat)) (makerFn : Nat → Nat) (scope : Scope) :
    Option ProvideResult :=
  match get_aa_scope_state scope session_scope_key with
  | some s => some ⟨s, scope, false⟩
  | none =>
    match (state.find? (fun p => p.1 = session_maker_app_state_key)).map (fun p => p.2) with
    | none => none
    | some mk =>
      let s := makerFn mk
      some ⟨s, set_aa_scope_state scope session_scope_key s, true⟩

/-- Key fields of one configuration, as read by the validation of
`SQLAlchemyInitPlugin._validate_config`. -/
structure ConfigKeys where
  session_scope_key : String
  engine_dependency_key : String
  session_dependency_key : String
deriving DecidableEq, Repr

/-- Method `SQLAlchemyInitPlugin._validate_config` (plugin.py lines 111 to
119): collects the scope, engine and session dependency keys of all
configurations into sets, and raises the repository-defined
ImproperConfigurationError when more than one configuration is given and
any of the three sets has fewer elements than there are configurations. -/
def _validate_config (configs : List ConfigKeys) : Except PyExc Unit :=
  if configs.length > 1 ∧
      ((configs.map (fun c => c.session_scope_key)).dedup.length ≠ configs.length ∨
       (configs.map (fun c => c.engine_dependency_key)).dedup.length ≠ configs.length ∨
       (configs.map (fun c => c.session_dependency_key)).dedup.length ≠ configs.length) then
    Except.error (PyExc.improperConfigurationError
      "When using multiple configurations, please ensure the session and engine dependency keys are unique across all configs")
  else
    Except.ok ()

/-- Decimal digit list of a natural number, most significant first, with
explicit fuel so that the definition reduces in the kernel.  This embeds
the decimal formatting the Python f-string applies to the retry counter. -/
def natReprAux : Nat → Nat → List Char
  | 0, _ => []
  | fuel + 1, n =>
    if n < 10 then [Nat.digitChar n]
    else natReprAux fuel (n / 10) ++ [Nat.digitChar (n % 10)]

/-- Decimal string representation of a natural number, as produced by the
Python string formatting of an int. -/
def natRepr (n : Nat) : String :=
  ⟨natReprAux (n + 1) n⟩

/-- Candidate key tried at a given iteration of `_ensure_unique`: the
requested key itself at iteration zero, and the key suffixed with an
underscore and the decimal iteration count afterwards. -/
def candidateKey (key : String) : Nat → String
  | 0 => key
  | n + 1 => key ++ "_" ++ natRepr (n + 1)

/-- Recursion of `SQLAlchemyAsyncConfig._ensure_unique` (asyncio.py lines
164 to 169), with fuel bounding the recursion depth: while the current
candidate is registered, move to the candidate of the next iteration. -/
def ensureUniqueGo (registry : List String) (key : String) :
    Nat → String → Nat → String
  | 0, newKey, _ => newKey
  | fuel + 1, newKey, iter =>
    if newKey ∈ registry then
      ensureUniqueGo registry key fuel (key ++ "_" ++ natRepr (iter + 1)) (iter + 1)
    else newKey

/-- Method `SQLAlchemyAsyncConfig._ensure_unique`: starting from the
requested key at iteration zero, returns the first candidate not present
in the registry.  A fuel of one more than the registry size always
suffices, because the candidates are pairwise distinct. -/
def _ensure_unique (registry : List String) (key : String) : String :=
  ensureUniqueGo registry key (registry.length + 1) key 0

/-- Registration step of `SQLAlchemyAsyncConfig.__post_init__` (asyncio.py
lines 171 to 180) for one key: replace the key by the first free candidate
and add the final value to the registry. -/
def registerKey (registry : List String) (key : String) : String × List String :=
  let newKey := _ensure_unique registry key
  (newKey, newKey :: registry)

/-- Modelled from the spec: a statement filter value passed to the filter
aggregate function of the providers module (which is not part of the
sources under review).  The constructors cover the filter kinds named by
the specification: collection filters, before-after filters, search
filters, limit-offset pagination, order-by sorting, and not-in collection
filters. -/
inductive StatementFilter
  | collectionFilter (field_name : String) (values : List String)
  | beforeAfter (field_name : String)
  | searchFilter (field_name : String) (value : Option String)
  | limitOffset (limit offset : Int)
  | orderBy (field_name : Option String)
  | notInCollectionFilter (field_name : String) (values : List String)
deriving DecidableEq, Repr

/-- Modelled from the spec: validity of a passed filter inside the filter
aggregate function: a SearchFilter whose value is None and an OrderBy
whose field name is None are dropped; every other filter is kept. -/
def validFilter : StatementFilter → Bool
  | .searchFilter _ none => false
  | .orderBy none => false
  | _ => true

/-- Modelled from the spec: the declarative filter configuration of the
providers module (which is not part of the sources under review).  Each
boolean field enables one filter dependency; the two field lists enable
one in-collection and one not-in-collection filter per listed field. -/
structure FilterConfig where
  id_filter : Bool
  created_at : Bool
  updated_at : Bool
  search : Bool
  limit_offset : Bool
  sort_field : Bool
  not_in_fields : List String
  in_fields : List String
deriving DecidableEq, Repr

/-- Modelled from the spec: the keyword parameter names of the aggregate
function produced by the providers module from a filter configuration,
one per configured filter. -/
def aggregateParamNames (cfg : FilterConfig) : List String :=
  (if cfg.id_filter then ["id_filter"] else []) ++
  (if cfg.created_at then ["created_filter"] else []) ++
  (if cfg.updated_at then ["updated_filter"] else []) ++
  (if cfg.search then ["search_filter"] else []) ++
  (if cfg.limit_offset then ["limit_offset_filter"] else []) ++
  (if cfg.sort_field then ["order_by_filter"] else []) ++
  cfg.not_in_fields.map (fun f => f ++ "_not_in_filter") ++
  cfg.in_fields.map (fun f => f ++ "_in_filter")

/-- Modelled from the spec: the aggregate function produced by
`_create_filter_aggregate_function` of the providers module.  The keyword
arguments of one call are a map from parameter names to the optionally
passed filter; the result lists, over the configured parameters, exactly
the passed filters that are valid. -/
def filterAggregate (cfg : FilterConfig) (args : String → Option StatementFilter) :
    List StatementFilter :=
  (aggregateParamNames cfg).filterMap (fun p =>
    match args p with
    | none => none
    | some f => if validFilter f then some f else none)

/-- Modelled from the spec: `_create_statement_filters` of the providers
module builds the dependency map of a filter configuration; the map is
embedded as the list of its dependency keys, one provider per configured
filter plus the aggregate dependency named filters. -/
def _create_statement_filters (cfg : FilterConfig) : List String :=
  aggregateParamNames cfg ++ ["filters"]

/-- Modelled from the spec: the dependency cache of the providers module,
keyed by the filter configuration. -/
abbrev DepCache := List (FilterConfig × List String)

/-- Modelled from the spec: lookup of the cached dependency map stored
under the key of a filter configuration. -/
def get_dependencies (cache : DepCache) (cfg : FilterConfig) : Option (List String) :=
  (cache.find? (fun p => p.1 = cfg)).map (fun p => p.2)

/-- Modelled from the spec: `create_filter_dependencies` of the providers
module.  On a cache hit the cached dependency map is returned and the cache
is unchanged; on a miss the map is built by `_create_statement_filters`,
stored in the cache under the key of the configuration, and returned.  The
boolean of the result records whether the map was rebuilt. -/
def create_filter_dependencies (cache : DepCache) (cfg : FilterConfig) :
    List String × DepCache × Bool :=
  match get_dependencies cache cfg with
  | some deps => (deps, cache, false)
  | none =>
    let deps := _create_statement_filters cfg
    (deps, (cfg, deps) :: cache, true)

/-! ## Helper lemmas on the scope state -/

theorem get_delete_aa_scope_state (scope : Scope) (key : String) :
    get_aa_scope_state (delete_aa_scope_state scope key) key = none := by
  unfold get_aa_scope_state delete_aa_scope_state
  have hfind : (List.filter (fun p => decide ¬p.1 = key) scope).find?
      (fun p => decide (p.1 = key)) = none := by
    rw [List.find?_eq_none]
    intro p hp
    rcases List.mem_filter.mp hp with ⟨-, hkey⟩
    simpa using hkey
  rw [hfind]
  rfl

theorem get_set_aa_scope_state (scope : Scope) (key : String) (v : Nat) :
    get_aa_scope_state (set_aa_scope_state scope key v) key = some v := by
  unfold get_aa_scope_state set_aa_scope_state
  simp [List.find?_cons]

/-! ## Claim theorems -/

/-- C1: when the handler produced by autocommit_handler_maker processes an
HTTP response-start message while a session is stored in the scope under
the session scope key, it commits the session if and only if the response
status code is in the commit range (200 to 299, or 200 to 399 when
commit_on_redirect is true) or in the extra commit statuses, and is not in
the extra rollback statuses; in every other such case it rolls the session
back. -/
theorem autocommit_commit_iff (commit_on_redirect : Bool)
    (extra_commit_statuses extra_rollback_statuses : List Int)
    (session_scope_key : String) (commitRaises rollbackRaises : Bool)
    (message : Message) (scope : Scope) (s : Nat)
    (hs : get_aa_scope_state scope session_scope_key = some s)
    (ht : message.type = HTTP_RESPONSE_START) :
    ((autocommitHandler commit_on_redirect extra_commit_statuses extra_rollback_statuses
        session_scope_key commitRaises rollbackRaises message scope).committed = true ↔
      ((200 ≤ message.status ∧
          message.status < (if commit_on_redirect then 400 else 300)) ∨
        message.status ∈ extra_commit_statuses) ∧
        message.status ∉ extra_rollback_statuses) ∧
    ((autocommitHandler commit_on_redirect extra_commit_statuses extra_rollback_statuses
        session_scope_key commitRaises rollbackRaises message scope).rolledBack = true ↔
      ¬ (((200 ≤ message.status ∧
          message.status < (if commit_on_redirect then 400 else 300)) ∨
        message.status ∈ extra_commit_statuses) ∧
        message.status ∉ extra_rollback_statuses)) := by
  have hc : (autocommitHandler commit_on_redirect extra_commit_statuses
      extra_rollback_statuses session_scope_key commitRaises rollbackRaises
      message scope).committed = true ↔
      ((200 ≤ message.status ∧
          message.status < (if commit_on_redirect then 400 else 300)) ∨
        message.status ∈ extra_commit_statuses) ∧
        message.status ∉ extra_rollback_statuses := by
    simp [autocommitHandler, inCommitRange, hs, ht]
  have hb : (autocommitHandler commit_on_redirect extra_commit_statuses
      extra_rollback_statuses session_scope_key commitRaises rollbackRaises
      message scope).rolledBack =
      !(autocommitHandler commit_on_redirect extra_commit_statuses
        extra_rollback_statuses session_scope_key commitRaises rollbackRaises
        message scope).committed := by
    simp [autocommitHandler, hs, ht]
  refine ⟨hc, ?_⟩
  rw [hb, Bool.not_eq_true', ← Bool.not_eq_true]
  exact not_congr hc

/-- Witness for C1: the decision iff at a stored session and a concrete
response-start message with status 204. -/
theorem autocommit_commit_iff_witness :
    get_aa_scope_state [(SESSION_SCOPE_KEY, 0)] SESSION_SCOPE_KEY = some 0 ∧
    (Message.mk HTTP_RESPONSE_START 204).type = HTTP_RESPONSE_START ∧
    (((autocommitHandler false [418] [503] SESSION_SCOPE_KEY false false
        (Message.mk HTTP_RESPONSE_START 204) [(SESSION_SCOPE_KEY, 0)]).committed = true ↔
      ((200 ≤ (Message.mk HTTP_RESPONSE_START 204).status ∧
          (Message.mk HTTP_RESPONSE_START 204).status < (if false then 400 else 300)) ∨
        (Message.mk HTTP_RESPONSE_START 204).status ∈ [(418 : Int)]) ∧
        (Message.mk HTTP_RESPONSE_START 204).status ∉ [(503 : Int)]) ∧
    ((autocommitHandler false [418] [503] SESSION_SCOPE_KEY false false
        (Message.mk HTTP_RESPONSE_START 204) [(SESSION_SCOPE_KEY, 0)]).rolledBack = true ↔
      ¬ (((200 ≤ (Message.mk HTTP_RESPONSE_START 204).status ∧
          (Message.mk HTTP_RESPONSE_START 204).status < (if false then 400 else 300)) ∨
        (Message.mk HTTP_RESPONSE_START 204).status ∈ [(418 : Int)]) ∧
        (Message.mk HTTP_RESPONSE_START 204).status ∉ [(503 : Int)]))) :=
  ⟨rfl, rfl,
    autocommit_commit_iff false [418] [503] SESSION_SCOPE_KEY false false
      (Message.mk HTTP_RESPONSE_START 204) [(SESSION_SCOPE_KEY, 0)] 0 rfl rfl⟩

/-- C6 counterexample: there is no HTTP status code for which the
status-code-driven handler, processing a response-start message with a
stored session, performs neither a commit nor a rollback; the body always
takes one of the two branches. -/
theorem autocommit_no_neither_outcome :
    ¬ ∃ status : Int,
      (autocommitHandler false [] [] SESSION_SCOPE_KEY false false
          (Message.mk HTTP_RESPONSE_START status) [(SESSION_SCOPE_KEY, 0)]).committed = false ∧
      (autocommitHandler false [] [] SESSION_SCOPE_KEY false false
          (Message.mk HTTP_RESPONSE_START status) [(SESSION_SCOPE_KEY, 0)]).rolledBack = false := by
  rintro ⟨status, h1, h2⟩
  have hg : get_aa_scope_state [(SESSION_SCOPE_KEY, 0)] SESSION_SCOPE_KEY = some 0 := rfl
  simp [autocommitHandler, inCommitRange, hg] at h1 h2
  omega

/-- C6 amended: on a response-start message with a stored session the
decision table has exactly two outcomes: the handler rolls back precisely
when it does not commit, so a run with neither outcome is impossible; the
no-operation outcome occurs only when no session is stored or the message
is not a response start. -/
theorem autocommit_two_outcomes (commit_on_redirect : Bool)
    (extra_commit_statuses extra_rollback_statuses : List Int)
    (session_scope_key : String) (commitRaises rollbackRaises : Bool)
    (message : Message) (scope : Scope) (s : Nat)
    (hs : get_aa_scope_state scope session_scope_key = some s)
    (ht : message.type = HTTP_RESPONSE_START) :
    (autocommitHandler commit_on_redirect extra_commit_statuses extra_rollback_statuses
        session_scope_key commitRaises rollbackRaises message scope).rolledBack =
      !(autocommitHandler commit_on_redirect extra_commit_statuses extra_rollback_statuses
        session_scope_key commitRaises rollbackRaises message scope).committed := by
  simp [autocommitHandler, hs, ht]

/-- Witness for the amended C6 at a concrete stored session and message. -/
theorem autocommit_two_outcomes_witness :
    get_aa_scope_state [(SESSION_SCOPE_KEY, 0)] SESSION_SCOPE_KEY = some 0 ∧
    (Message.mk HTTP_RESPONSE_START 500).type = HTTP_RESPONSE_START ∧
    (autocommitHandler false [] [] SESSION_SCOPE_KEY false false
        (Message.mk HTTP_RESPONSE_START 500) [(SESSION_SCOPE_KEY, 0)]).rolledBack =
      !(autocommitHandler false [] [] SESSION_SCOPE_KEY false false
        (Message.mk HTTP_RESPONSE_START 500) [(SESSION_SCOPE_KEY, 0)]).committed :=
  ⟨rfl, rfl,
    autocommit_two_outcomes false [] [] SESSION_SCOPE_KEY false false
      (Message.mk HTTP_RESPONSE_START 500) [(SESSION_SCOPE_KEY, 0)] 0 rfl rfl⟩

/-- C10: the handler produced by default_handler_maker never commits or
rolls back a session and never raises; its only effects are closing the
stored session and deleting it from the scope state when the message type
is a session-terminus event and a session is stored, and it leaves the
scope state unchanged otherwise. -/
theorem default_handler_only_cleanup (session_scope_key : String)
    (message : Message) (scope : Scope) :
    (defaultHandler session_scope_key message scope).committed = false ∧
    (defaultHandler session_scope_key message scope).rolledBack = false ∧
    (defaultHandler session_scope_key message scope).raised = false ∧
    ((defaultHandler session_scope_key message scope).closed = true ↔
      (get_aa_scope_state scope session_scope_key).isSome = true ∧
        message.type ∈ SESSION_TERMINUS_ASGI_EVENTS) ∧
    ((defaultHandler session_scope_key message scope).closed = true →
      (defaultHandler session_scope_key message scope).scope =
        delete_aa_scope_state scope session_scope_key) ∧
    ((defaultHandler session_scope_key message scope).closed = false →
      (defaultHandler session_scope_key message scope).scope = scope) := by
  refine ⟨rfl, rfl, rfl, ?_, ?_, ?_⟩
  · simp [defaultHandler]
  · intro h
    simp only [defaultHandler] at h ⊢
    rw [if_pos h]
  · intro h
    simp only [defaultHandler] at h ⊢
    rw [if_neg]
    simp only [h]
    exact Bool.false_ne_true

/-- C3: each before-send handler closes the stored session and deletes it
from the scope state exactly when the message type is a session-terminus
ASGI event and a session is stored under the scope key; in the autocommit
handler this holds for every value of the raise flags, hence also when the
commit or rollback raises; for every other message the scope state is left
unchanged. -/
theorem handlers_cleanup_exactly (session_scope_key : String)
    (commit_on_redirect : Bool)
    (extra_commit_statuses extra_rollback_statuses : List Int)
    (commitRaises rollbackRaises : Bool) (message : Message) (scope : Scope) :
    ((defaultHandler session_scope_key message scope).closed = true ↔
      (get_aa_scope_state scope session_scope_key).isSome = true ∧
        message.type ∈ SESSION_TERMINUS_ASGI_EVENTS) ∧
    ((defaultHandler session_scope_key message scope).closed = true →
      get_aa_scope_state (defaultHandler session_scope_key message scope).scope
        session_scope_key = none) ∧
    ((defaultHandler session_scope_key message scope).closed = false →
      (defaultHandler session_scope_key message scope).scope = scope) ∧
    ((autocommitHandler commit_on_redirect extra_commit_statuses extra_rollback_statuses
        session_scope_key commitRaises rollbackRaises message scope).closed = true ↔
      (get_aa_scope_state scope session_scope_key).isSome = true ∧
        message.type ∈ SESSION_TERMINUS_ASGI_EVENTS) ∧
    ((autocommitHandler commit_on_redirect extra_commit_statuses extra_rollback_statuses
        session_scope_key commitRaises rollbackRaises message scope).closed = true →
      get_aa_scope_state (autocommitHandler commit_on_redirect extra_commit_statuses
        extra_rollback_statuses session_scope_key commitRaises rollbackRaises
        message scope).scope session_scope_key = none) ∧
    ((autocommitHandler commit_on_redirect extra_commit_statuses extra_rollback_statuses
        session_scope_key commitRaises rollbackRaises message scope).closed = false →
      (autocommitHandler commit_on_redirect extra_commit_statuses extra_rollback_statuses
        session_scope_key commitRaises rollbackRaises message scope).scope = scope) := by
  refine ⟨?_, ?_, ?_, ?_, ?_, ?_⟩
  · simp [defaultHandler]
  · intro h
    simp only [defaultHandler] at h ⊢
    rw [if_pos h]
    exact get_delete_aa_scope_state scope session_scope_key
  · intro h
    simp only [defaultHandler] at h ⊢
    rw [if_neg]
    simp only [h]
    exact Bool.false_ne_true
  · simp [autocommitHandler]
  · intro h
    simp only [autocommitHandler] at h ⊢
    rw [if_pos h]
    exact get_delete_aa_scope_state scope session_scope_key
  · intro h
    simp only [autocommitHandler] at h ⊢
    rw [if_neg]
    simp only [h]
    exact Bool.false_ne_true

/-- Witness for C3 at a disconnect message with a stored session, with the
rollback raise flag set. -/
theorem handlers_cleanup_exactly_witness :
    ((defaultHandler "k" (Message.mk "http.disconnect" 0) [("k", 5)]).closed = true ↔
      (get_aa_scope_state [("k", 5)] "k").isSome = true ∧
        (Message.mk "http.disconnect" (0 : Int)).type ∈ SESSION_TERMINUS_ASGI_EVENTS) ∧
    ((defaultHandler "k" (Message.mk "http.disconnect" 0) [("k", 5)]).closed = true →
      get_aa_scope_state (defaultHandler "k" (Message.mk "http.disconnect" 0)
        [("k", 5)]).scope "k" = none) ∧
    ((defaultHandler "k" (Message.mk "http.disconnect" 0) [("k", 5)]).closed = false →
      (defaultHandler "k" (Message.mk "http.disconnect" 0) [("k", 5)]).scope = [("k", 5)]) ∧
    ((autocommitHandler false [] [] "k" false true
        (Message.mk "http.disconnect" 0) [("k", 5)]).closed = true ↔
      (get_aa_scope_state [("k", 5)] "k").isSome = true ∧
        (Message.mk "http.disconnect" (0 : Int)).type ∈ SESSION_TERMINUS_ASGI_EVENTS) ∧
    ((autocommitHandler false [] [] "k" false true
        (Message.mk "http.disconnect" 0) [("k", 5)]).closed = true →
      get_aa_scope_state (autocommitHandler false [] [] "k" false true
        (Message.mk "http.disconnect" 0) [("k", 5)]).scope "k" = none) ∧
    ((autocommitHandler false [] [] "k" false true
        (Message.mk "http.disconnect" 0) [("k", 5)]).closed = false →
      (autocommitHandler false [] [] "k" false true
        (Message.mk "http.disconnect" 0) [("k", 5)]).scope = [("k", 5)]) :=
  handlers_cleanup_exactly "k" false [] [] false true (Message.mk "http.disconnect" 0) [("k", 5)]

/-- C2: provide_session is idempotent per request scope: when a session is
already stored under the scope key it is returned unchanged without
invoking the session maker; when none is stored, the maker found in the
application state under the session maker key is invoked once, the new
session is stored in the scope, and the immediately following call returns
that same stored session without invoking the maker again. -/
theorem provide_session_idempotent (session_maker_app_state_key session_scope_key : String)
    (state : List (String × Nat)) (makerFn : Nat → Nat) (scope : Scope) (mk : Nat)
    (hmk : (state.find? (fun p => p.1 = session_maker_app_state_key)).map
      (fun p => p.2) = some mk) :
    (∀ s, get_aa_scope_state scope session_scope_key = some s →
      provide_session session_maker_app_state_key session_scope_key state makerFn scope =
        some ⟨s, scope, false⟩) ∧
    (get_aa_scope_state scope session_scope_key = none →
      provide_session session_maker_app_state_key session_scope_key state makerFn scope =
        some ⟨makerFn mk, set_aa_scope_state scope session_scope_key (makerFn mk), true⟩ ∧
      provide_session session_maker_app_state_key session_scope_key state makerFn
          (set_aa_scope_state scope session_scope_key (makerFn mk)) =
        some ⟨makerFn mk, set_aa_scope_state scope session_scope_key (makerFn mk), false⟩) := by
  constructor
  · intro s hs
    unfold provide_session
    rw [hs]
  · intro hnone
    constructor
    · unfold provide_session
      rw [hnone, hmk]
    · unfold provide_session
      rw [get_set_aa_scope_state]

/-- Witness for C2 at a concrete empty scope and a one-entry application
state. -/
theorem provide_session_idempotent_witness :
    (([("m", 7)] : List (String × Nat)).find? (fun p => p.1 = "m")).map
      (fun p => p.2) = some 7 ∧
    ((∀ s, get_aa_scope_state [] "k" = some s →
      provide_session "m" "k" [("m", 7)] (fun n => n + 1) [] = some ⟨s, [], false⟩) ∧
    (get_aa_scope_state [] "k" = none →
      provide_session "m" "k" [("m", 7)] (fun n => n + 1) [] =
        some ⟨8, set_aa_scope_state [] "k" 8, true⟩ ∧
      provide_session "m" "k" [("m", 7)] (fun n => n + 1) (set_aa_scope_state [] "k" 8) =
        some ⟨8, set_aa_scope_state [] "k" 8, false⟩)) :=
  ⟨rfl, provide_session_idempotent "m" "k" [("m", 7)] (fun n => n + 1) [] 7 rfl⟩

/-- C8: autocommit_handler_maker raises ValueError if and only if the extra
commit statuses and the extra rollback statuses, each treated as empty when
missing, share at least one status code; any raised error is exactly that
ValueError, and when the two sets are disjoint the maker returns the
handler parameters and raises nothing. -/
theorem autocommit_maker_value_error_iff (commit_on_redirect : Bool)
    (extra_commit_statuses extra_rollback_statuses : Option (List Int))
    (session_scope_key : String) :
    ((∃ e, autocommit_handler_maker commit_on_redirect extra_commit_statuses
        extra_rollback_statuses session_scope_key = Except.error e) ↔
      ∃ s, s ∈ extra_commit_statuses.getD [] ∧ s ∈ extra_rollback_statuses.getD []) ∧
    (∀ e, autocommit_handler_maker commit_on_redirect extra_commit_statuses
        extra_rollback_statuses session_scope_key = Except.error e →
      e = PyExc.valueError
        "Extra rollback statuses and commit statuses must not share any status codes") ∧
    ((¬ ∃ s, s ∈ extra_commit_statuses.getD [] ∧ s ∈ extra_rollback_statuses.getD []) →
      autocommit_handler_maker commit_on_redirect extra_commit_statuses
        extra_rollback_statuses session_scope_key =
        Except.ok (commit_on_redirect, extra_commit_statuses.getD [],
          extra_rollback_statuses.getD [], session_scope_key)) := by
  unfold autocommit_handler_maker
  by_cases hshare : ∃ s, s ∈ extra_commit_statuses.getD [] ∧
      s ∈ extra_rollback_statuses.getD []
  · have hany : (extra_commit_statuses.getD []).any
        (fun s => (extra_rollback_statuses.getD []).contains s) = true := by
      rcases hshare with ⟨s, hc, hr⟩
      exact List.any_eq_true.mpr ⟨s, hc, by simpa using hr⟩
    rw [if_pos hany]
    refine ⟨⟨fun _ => hshare, fun _ => ⟨_, rfl⟩⟩, ?_, fun hn => absurd hshare hn⟩
    intro e he
    exact (Except.error.inj he).symm
  · have hany : ¬ (extra_commit_statuses.getD []).any
        (fun s => (extra_rollback_statuses.getD []).contains s) = true := by
      intro hc
      rcases List.any_eq_true.mp hc with ⟨s, hs, hr⟩
      exact hshare ⟨s, hs, by simpa using hr⟩
    rw [if_neg hany]
    exact ⟨⟨fun ⟨e, he⟩ => absurd he (by simp), fun h => absurd h hshare⟩,
      fun e he => absurd he (by simp), fun _ => rfl⟩

/-- C7 counterexample: configuration validation at two configurations that
share every key raises ImproperConfigurationError, which is an exception
type defined by the repository itself, contradicting the claim that no
operation raises a repository-defined exception. -/
theorem validate_config_raises_repo_exception :
    _validate_config
        [ConfigKeys.mk "a" "b" "c", ConfigKeys.mk "a" "b" "c"] =
      Except.error (PyExc.improperConfigurationError
        "When using multiple configurations, please ensure the session and engine dependency keys are unique across all configs") ∧
    PyExc.repositoryDefined (PyExc.improperConfigurationError
        "When using multiple configurations, please ensure the session and engine dependency keys are unique across all configs") = true := by
  exact ⟨rfl, rfl⟩

/-- C7 amended: the before-send handler makers raise only the builtin
ValueError, never a repository-defined exception; configuration validation
however raises the repository-defined ImproperConfigurationError, exactly
when more than one configuration is given and the scope, engine or session
dependency keys are not unique across the configurations. -/
theorem errors_taxonomy_amended (configs : List ConfigKeys) (commit_on_redirect : Bool)
    (extra_commit_statuses extra_rollback_statuses : Option (List Int))
    (session_scope_key : String) :
    (∀ e, _validate_config configs = Except.error e → e.repositoryDefined = true) ∧
    ((∃ e, _validate_config configs = Except.error e) ↔
      (configs.length > 1 ∧
        ((configs.map (fun c => c.session_scope_key)).dedup.length ≠ configs.length ∨
         (configs.map (fun c => c.engine_dependency_key)).dedup.length ≠ configs.length ∨
         (configs.map (fun c => c.session_dependency_key)).dedup.length ≠ configs.length))) ∧
    (∀ e, autocommit_handler_maker commit_on_redirect extra_commit_statuses
        extra_rollback_statuses session_scope_key = Except.error e →
      e.repositoryDefined = false) := by
  refine ⟨?_, ?_, ?_⟩
  · intro e he
    unfold _validate_config at he
    split at he
    · cases he
      rfl
    · cases he
  · unfold _validate_config
    by_cases hcond : (configs.length > 1 ∧
        ((configs.map (fun c => c.session_scope_key)).dedup.length ≠ configs.length ∨
         (configs.map (fun c => c.engine_dependency_key)).dedup.length ≠ configs.length ∨
         (configs.map (fun c => c.session_dependency_key)).dedup.length ≠ configs.length))
    · rw [if_pos hcond]
      exact ⟨fun _ => hcond, fun _ => ⟨_, rfl⟩⟩
    · rw [if_neg hcond]
      refine ⟨?_, fun h => absurd h hcond⟩
      rintro ⟨e, he⟩
      cases he
  · intro e he
    unfold autocommit_handler_maker at he
    dsimp only at he
    split at he
    · cases he
      rfl
    · cases he

/-- Witness for the amended C7 at a concrete duplicated configuration pair
and a concrete sharing maker input. -/
theorem errors_taxonomy_amended_witness :
    (∀ e, _validate_config [ConfigKeys.mk "a" "b" "c", ConfigKeys.mk "a" "b" "c"] =
        Except.error e → e.repositoryDefined = true) ∧
    ((∃ e, _validate_config [ConfigKeys.mk "a" "b" "c", ConfigKeys.mk "a" "b" "c"] =
        Except.error e) ↔
      (([ConfigKeys.mk "a" "b" "c", ConfigKeys.mk "a" "b" "c"] : List ConfigKeys).length > 1 ∧
        ((([ConfigKeys.mk "a" "b" "c", ConfigKeys.mk "a" "b" "c"] : List ConfigKeys).map
            (fun c => c.session_scope_key)).dedup.length ≠
          ([ConfigKeys.mk "a" "b" "c", ConfigKeys.mk "a" "b" "c"] : List ConfigKeys).length ∨
         (([ConfigKeys.mk "a" "b" "c", ConfigKeys.mk "a" "b" "c"] : List ConfigKeys).map
            (fun c => c.engine_dependency_key)).dedup.length ≠
          ([ConfigKeys.mk "a" "b" "c", ConfigKeys.mk "a" "b" "c"] : List ConfigKeys).length ∨
         (([ConfigKeys.mk "a" "b" "c", ConfigKeys.mk "a" "b" "c"] : List ConfigKeys).map
            (fun c => c.session_dependency_key)).dedup.length ≠
          ([ConfigKeys.mk "a" "b" "c", ConfigKeys.mk "a" "b" "c"] : List ConfigKeys).length))) ∧
    (∀ e, autocommit_handler_maker true (some [302]) (some [302]) "k" = Except.error e →
      e.repositoryDefined = false) :=
  errors_taxonomy_amended [ConfigKeys.mk "a" "b" "c", ConfigKeys.mk "a" "b" "c"]
    true (some [302]) (some [302]) "k"

/-- C4: create_filter_dependencies is a cache keyed by the filter
configuration: on a cache hit the cached dependency map is returned with
the cache unchanged and nothing rebuilt or re-stored; on a miss the map is
built by _create_statement_filters, stored in the cache under the key of
the configuration, and returned. -/
theorem create_filter_dependencies_cache (cache : DepCache) (cfg : FilterConfig) :
    (∀ deps, get_dependencies cache cfg = some deps →
      create_filter_dependencies cache cfg = (deps, cache, false)) ∧
    (get_dependencies cache cfg = none →
      create_filter_dependencies cache cfg =
        (_create_statement_filters cfg, (cfg, _create_statement_filters cfg) :: cache, true) ∧
      get_dependencies ((cfg, _create_statement_filters cfg) :: cache) cfg =
        some (_create_statement_filters cfg)) := by
  constructor
  · intro deps hd
    unfold create_filter_dependencies
    rw [hd]
  · intro hnone
    refine ⟨?_, ?_⟩
    · unfold create_filter_dependencies
      rw [hnone]
    · simp [get_dependencies, List.find?_cons]

/-- Witness for C4 at the empty cache and a concrete configuration. -/
theorem create_filter_dependencies_cache_witness :
    (∀ deps, get_dependencies [] (FilterConfig.mk true false false false false false [] []) =
        some deps →
      create_filter_dependencies [] (FilterConfig.mk true false false false false false [] []) =
        (deps, [], false)) ∧
    (get_dependencies [] (FilterConfig.mk true false false false false false [] []) = none →
      create_filter_dependencies [] (FilterConfig.mk true false false false false false [] []) =
        (_create_statement_filters (FilterConfig.mk true false false false false false [] []),
          [(FilterConfig.mk true false false false false false [] [],
            _create_statement_filters (FilterConfig.mk true false false false false false [] []))],
          true) ∧
      get_dependencies
          [(FilterConfig.mk true false false false false false [] [],
            _create_statement_filters (FilterConfig.mk true false false false false false [] []))]
          (FilterConfig.mk true false false false false false [] []) =
        some (_create_statement_filters (FilterConfig.mk true false false false false false [] []))) :=
  create_filter_dependencies_cache [] (FilterConfig.mk true false false false false false [] [])

/-- C5: the aggregate function built from a declarative filter
configuration takes one keyword parameter per configured filter, and
returns exactly the passed filters that are valid: a parameter that is not
passed contributes nothing, and a passed filter is in the result if and
only if it is valid, where the invalid filters are exactly the
SearchFilter with a missing value and the OrderBy with a missing field
name. -/
theorem filter_aggregate_spec (cfg : FilterConfig)
    (args : String → Option StatementFilter) :
    (∀ f, f ∈ filterAggregate cfg args ↔
      ∃ p, p ∈ aggregateParamNames cfg ∧ args p = some f ∧ validFilter f = true) ∧
    (cfg.id_filter = true → "id_filter" ∈ aggregateParamNames cfg) ∧
    (cfg.created_at = true → "created_filter" ∈ aggregateParamNames cfg) ∧
    (cfg.updated_at = true → "updated_filter" ∈ aggregateParamNames cfg) ∧
    (cfg.search = true → "search_filter" ∈ aggregateParamNames cfg) ∧
    (cfg.limit_offset = true → "limit_offset_filter" ∈ aggregateParamNames cfg) ∧
    (cfg.sort_field = true → "order_by_filter" ∈ aggregateParamNames cfg) ∧
    (∀ fld, fld ∈ cfg.in_fields → fld ++ "_in_filter" ∈ aggregateParamNames cfg) ∧
    (∀ fld, fld ∈ cfg.not_in_fields → fld ++ "_not_in_filter" ∈ aggregateParamNames cfg) ∧
    (∀ f, validFilter f = false ↔
      (∃ fn, f = StatementFilter.searchFilter fn none) ∨
        f = StatementFilter.orderBy none) := by
  refine ⟨?_, ?_, ?_, ?_, ?_, ?_, ?_, ?_, ?_, ?_⟩
  · intro f
    unfold filterAggregate
    rw [List.mem_filterMap]
    constructor
    · rintro ⟨p, hp, hf⟩
      cases hargs : args p with
      | none => rw [hargs] at hf; cases hf
      | some g =>
        rw [hargs] at hf
        dsimp only at hf
        by_cases hv : validFilter g = true
        · rw [if_pos hv] at hf
          cases hf
          exact ⟨p, hp, hargs, hv⟩
        · rw [if_neg hv] at hf
          cases hf
    · rintro ⟨p, hp, hargs, hv⟩
      exact ⟨p, hp, by simp [hargs, hv]⟩
  · intro h
    simp [aggregateParamNames, h]
  · intro h
    simp [aggregateParamNames, h]
  · intro h
    simp [aggregateParamNames, h]
  · intro h
    simp [aggregateParamNames, h]
  · intro h
    simp [aggregateParamNames, h]
  · intro h
    simp [aggregateParamNames, h]
  · intro fld hfld
    simp only [aggregateParamNames, List.mem_append]
    exact Or.inr (List.mem_map.mpr ⟨fld, hfld, rfl⟩)
  · intro fld hfld
    simp only [aggregateParamNames, List.mem_append]
    exact Or.inl (Or.inr (List.mem_map.mpr ⟨fld, hfld, rfl⟩))
  · intro f
    cases f with
    | searchFilter fn v => cases v <;> simp [validFilter]
    | orderBy fn => cases fn <;> simp [validFilter]
    | collectionFilter fn vs => simp [validFilter]
    | beforeAfter fn => simp [validFilter]
    | limitOffset l o => simp [validFilter]
    | notInCollectionFilter fn vs => simp [validFilter]

/-! ## Helper lemmas for the key uniqueness claim -/

theorem digitChar_inj_lt : ∀ a, a < 10 → ∀ b, b < 10 →
    Nat.digitChar a = Nat.digitChar b → a = b := by decide

theorem natReprAux_ne_nil : ∀ fuel n, n < fuel → natReprAux fuel n ≠ [] := by
  intro fuel n h
  cases fuel with
  | zero => omega
  | succ f =>
    unfold natReprAux
    by_cases h10 : n < 10
    · rw [if_pos h10]
      simp
    · rw [if_neg h10]
      simp

theorem append_singleton_inj {α : Type} {xs ys : List α} {a b : α}
    (h : xs ++ [a] = ys ++ [b]) : xs = ys ∧ a = b := by
  have h2 := congrArg List.reverse h
  simp only [List.reverse_append, List.reverse_cons, List.reverse_nil,
    List.nil_append, List.singleton_append, List.cons.injEq] at h2
  exact ⟨by simpa using congrArg List.reverse h2.2, h2.1⟩

theorem natReprAux_inj : ∀ fuel n, n < fuel → ∀ g m, m < g →
    natReprAux fuel n = natReprAux g m → n = m := by
  intro fuel
  induction fuel with
  | zero => intro n h; omega
  | succ f ih =>
    intro n hn g m hm heq
    cases g with
    | zero => omega
    | succ g0 =>
      unfold natReprAux at heq
      by_cases hn10 : n < 10 <;> by_cases hm10 : m < 10
      · rw [if_pos hn10, if_pos hm10] at heq
        exact digitChar_inj_lt n hn10 m hm10 (List.cons.injEq _ _ _ _ ▸ heq |>.1)
      · rw [if_pos hn10, if_neg hm10] at heq
        have hlen := congrArg List.length heq
        have hne : natReprAux g0 (m / 10) ≠ [] := by
          apply natReprAux_ne_nil
          omega
        simp only [List.length_append, List.length_cons, List.length_nil] at hlen
        cases hcase : natReprAux g0 (m / 10) with
        | nil => exact absurd hcase hne
        | cons c cs => rw [hcase] at hlen; simp at hlen
      · rw [if_neg hn10, if_pos hm10] at heq
        have hlen := congrArg List.length heq
        have hne : natReprAux f (n / 10) ≠ [] := by
          apply natReprAux_ne_nil
          omega
        simp only [List.length_append, List.length_cons, List.length_nil] at hlen
        cases hcase : natReprAux f (n / 10) with
        | nil => exact absurd hcase hne
        | cons c cs => rw [hcase] at hlen; simp at hlen
      · rw [if_neg hn10, if_neg hm10] at heq
        rcases append_singleton_inj heq with ⟨hpre, hdig⟩
        have hdiv : n / 10 = m / 10 :=
          ih (n / 10) (by omega) g0 (m / 10) (by omega) hpre
        have hmod : n % 10 = m % 10 :=
          digitChar_inj_lt _ (Nat.mod_lt _ (by omega)) _ (Nat.mod_lt _ (by omega)) hdig
        omega

theorem natRepr_inj {n m : Nat} (h : natRepr n = natRepr m) : n = m := by
  have hdata : natReprAux (n + 1) n = natReprAux (m + 1) m := by
    have h2 := congrArg String.data h
    simpa [natRepr] using h2
  exact natReprAux_inj (n + 1) n (by omega) (m + 1) m (by omega) hdata

theorem candidateKey_data (key : String) (n : Nat) :
    (candidateKey key (n + 1)).data = key.data ++ ('_' :: (natRepr (n + 1)).data) := by
  show (key ++ "_" ++ natRepr (n + 1)).data = _
  simp [String.data_append]

theorem candidateKey_inj (key : String) : Function.Injective (candidateKey key) := by
  intro i j h
  cases i with
  | zero =>
    cases j with
    | zero => rfl
    | succ j0 =>
      have hd := congrArg String.data h
      rw [candidateKey_data] at hd
      have hlen := congrArg List.length hd
      simp [candidateKey] at hlen
  | succ i0 =>
    cases j with
    | zero =>
      have hd := congrArg String.data h
      rw [candidateKey_data] at hd
      have hlen := congrArg List.length hd
      simp [candidateKey] at hlen
    | succ j0 =>
      have hd := congrArg String.data h
      rw [candidateKey_data, candidateKey_data] at hd
      have h2 := List.append_cancel_left hd
      have h3 : (natRepr (i0 + 1)).data = (natRepr (j0 + 1)).data :=
        (List.cons.injEq _ _ _ _ ▸ h2).2
      have h4 : natRepr (i0 + 1) = natRepr (j0 + 1) := congrArg String.mk h3
      exact natRepr_inj h4

theorem exists_free_candidate (registry : List String) (key : String) :
    ∃ d, d ≤ registry.length ∧ candidateKey key d ∉ registry := by
  by_contra hcon
  push_neg at hcon
  have hsub : ((List.range (registry.length + 1)).map (candidateKey key)) ⊆ registry := by
    intro x hx
    rcases List.mem_map.mp hx with ⟨d, hd, rfl⟩
    exact hcon d (by simpa using Nat.lt_succ_iff.mp (List.mem_range.mp hd))
  have hnodup : ((List.range (registry.length + 1)).map (candidateKey key)).Nodup :=
    (List.nodup_range _).map (candidateKey_inj key)
  have hle := (hnodup.subperm hsub).length_le
  simp at hle

theorem candidateKey_succ (key : String) (iter : Nat) :
    candidateKey key (iter + 1) = key ++ "_" ++ natRepr (iter + 1) := rfl

theorem ensureUniqueGo_succ (registry : List String) (key : String)
    (f iter : Nat) (newKey : String) :
    ensureUniqueGo registry key (f + 1) newKey iter =
      if newKey ∈ registry then
        ensureUniqueGo registry key f (key ++ "_" ++ natRepr (iter + 1)) (iter + 1)
      else newKey := rfl

theorem ensureUniqueGo_spec (registry : List String) (key : String) :
    ∀ fuel iter, (∃ d, d ≤ fuel ∧ candidateKey key (iter + d) ∉ registry) →
      ∃ d, ensureUniqueGo registry key fuel (candidateKey key iter) iter =
            candidateKey key (iter + d) ∧
          candidateKey key (iter + d) ∉ registry ∧
          ∀ e, e < d → candidateKey key (iter + e) ∈ registry := by
  intro fuel
  induction fuel with
  | zero =>
    intro iter hex
    rcases hex with ⟨d, hd, hfree⟩
    interval_cases d
    exact ⟨0, rfl, hfree, fun e he => absurd he (Nat.not_lt_zero e)⟩
  | succ f ih =>
    intro iter hex
    by_cases hmem : candidateKey key iter ∈ registry
    · have hstep : ensureUniqueGo registry key (f + 1) (candidateKey key iter) iter =
          ensureUniqueGo registry key f (candidateKey key (iter + 1)) (iter + 1) := by
        rw [ensureUniqueGo_succ, if_pos hmem, candidateKey_succ]
      rcases hex with ⟨d, hd, hfree⟩
      have hd0 : d ≠ 0 := by
        rintro rfl
        exact absurd hmem (by simpa using hfree)
      rcases ih (iter + 1) ⟨d - 1, by omega, by
        have harith : iter + 1 + (d - 1) = iter + d := by omega
        rw [harith]
        exact hfree⟩ with ⟨d0, hgo, hfree0, hmin0⟩
      refine ⟨d0 + 1, ?_, ?_, ?_⟩
      · rw [hstep, hgo]
        have harith : iter + 1 + d0 = iter + (d0 + 1) := by omega
        rw [harith]
      · have harith : iter + (d0 + 1) = iter + 1 + d0 := by omega
        rw [harith]
        exact hfree0
      · intro e he
        cases e with
        | zero => simpa using hmem
        | succ e0 =>
          have harith : iter + (e0 + 1) = iter + 1 + e0 := by omega
          rw [harith]
          exact hmin0 e0 (by omega)
    · refine ⟨0, ?_, by simpa using hmem, fun e he => absurd he (Nat.not_lt_zero e)⟩
      rw [ensureUniqueGo_succ, if_neg hmem]
      exact congrArg (candidateKey key) (Nat.add_zero iter).symm

theorem ensure_unique_full (registry : List String) (key : String) :
    ∃ d, _ensure_unique registry key = candidateKey key d ∧
      candidateKey key d ∉ registry ∧
      ∀ e, e < d → candidateKey key e ∈ registry := by
  rcases exists_free_candidate registry key with ⟨d, hd, hfree⟩
  have hex : ∃ e, e ≤ registry.length + 1 ∧ candidateKey key (0 + e) ∉ registry :=
    ⟨d, by omega, by simpa using hfree⟩
  rcases ensureUniqueGo_spec registry key (registry.length + 1) 0 hex with ⟨d0, hgo, hf, hm⟩
  refine ⟨d0, ?_, by simpa using hf, fun e he => by simpa using hm e he⟩
  have hck : _ensure_unique registry key =
      ensureUniqueGo registry key (registry.length + 1) (candidateKey key 0) 0 := rfl
  rw [hck, hgo]
  simp

/-- C9: the registration step keeps the registered keys unique: the value
chosen by _ensure_unique is never already registered; a requested key that
is not registered is kept unchanged; a requested key that is registered is
replaced by the key suffixed with an underscore and the smallest positive
decimal counter whose candidate is not registered; and __post_init__ then
adds the final value to the registry. -/
theorem ensure_unique_spec (registry : List String) (key : String) :
    _ensure_unique registry key ∉ registry ∧
    (key ∉ registry → _ensure_unique registry key = key) ∧
    (key ∈ registry →
      ∃ n, 0 < n ∧ _ensure_unique registry key = key ++ "_" ++ natRepr n ∧
        key ++ "_" ++ natRepr n ∉ registry ∧
        ∀ m, 0 < m → m < n → key ++ "_" ++ natRepr m ∈ registry) ∧
    (registerKey registry key).1 = _ensure_unique registry key ∧
    _ensure_unique registry key ∈ (registerKey registry key).2 := by
  rcases ensure_unique_full registry key with ⟨d, heq, hfree, hmin⟩
  refine ⟨by rw [heq]; exact hfree, ?_, ?_, rfl, ?_⟩
  · intro hkey
    cases d with
    | zero => exact heq
    | succ d0 =>
      have h0 : candidateKey key 0 ∈ registry := hmin 0 (Nat.succ_pos d0)
      exact absurd h0 hkey
  · intro hkey
    cases d with
    | zero => exact absurd hkey (by simpa using hfree)
    | succ d0 =>
      refine ⟨d0 + 1, Nat.succ_pos d0, ?_, ?_, ?_⟩
      · rw [heq, candidateKey_succ]
      · rw [← candidateKey_succ]
        exact hfree
      · intro m hm0 hmn
        have hmem := hmin m hmn
        cases m with
        | zero => omega
        | succ m0 =>
          rw [← candidateKey_succ]
          exact hmem
  · have hreg : (registerKey registry key).2 =
        _ensure_unique registry key :: registry := rfl
    rw [hreg]
    exact List.mem_cons_self _ _

/-- Witness for C9 at a one-element registry that already holds the
requested key, where the chosen key becomes the key with suffix _1. -/
theorem ensure_unique_spec_witness :
    _ensure_unique ["db_engine"] "db_engine" ∉ ["db_engine"] ∧
    ("db_engine" ∉ ["db_engine"] → _ensure_unique ["db_engine"] "db_engine" = "db_engine") ∧
    ("db_engine" ∈ ["db_engine"] →
      ∃ n, 0 < n ∧ _ensure_unique ["db_engine"] "db_engine" =
          "db_engine" ++ "_" ++ natRepr n ∧
        "db_engine" ++ "_" ++ natRepr n ∉ ["db_engine"] ∧
        ∀ m, 0 < m → m < n → "db_engine" ++ "_" ++ natRepr m ∈ ["db_engine"]) ∧
    (registerKey ["db_engine"] "db_engine").1 = _ensure_unique ["db_engine"] "db_engine" ∧
    _ensure_unique ["db_engine"] "db_engine" ∈ (registerKey ["db_engine"] "db_engine").2 :=
  ensure_unique_spec ["db_engine"] "db_engine"

/-- Witness for C10 at a websocket close message with a stored session. -/
theorem default_handler_only_cleanup_witness :
    (defaultHandler "k" (Message.mk "websocket.close" 0) [("k", 3)]).committed = false ∧
    (defaultHandler "k" (Message.mk "websocket.close" 0) [("k", 3)]).rolledBack = false ∧
    (defaultHandler "k" (Message.mk "websocket.close" 0) [("k", 3)]).raised = false ∧
    ((defaultHandler "k" (Message.mk "websocket.close" 0) [("k", 3)]).closed = true ↔
      (get_aa_scope_state [("k", 3)] "k").isSome = true ∧
        (Message.mk "websocket.close" (0 : Int)).type ∈ SESSION_TERMINUS_ASGI_EVENTS) ∧
    ((defaultHandler "k" (Message.mk "websocket.close" 0) [("k", 3)]).closed = true →
      (defaultHandler "k" (Message.mk "websocket.close" 0) [("k", 3)]).scope =
        delete_aa_scope_state [("k", 3)] "k") ∧
    ((defaultHandler "k" (Message.mk "websocket.close" 0) [("k", 3)]).closed = false →
      (defaultHandler "k" (Message.mk "websocket.close" 0) [("k", 3)]).scope = [("k", 3)]) :=
  default_handler_only_cleanup "k" (Message.mk "websocket.close" 0) [("k", 3)]

/-- Witness for C8 at maker inputs sharing the status 418. -/
theorem autocommit_maker_value_error_iff_witness :
    ((∃ e, autocommit_handler_maker false (some [418, 200]) (some [418]) "k" =
        Except.error e) ↔
      ∃ s, s ∈ (some [(418 : Int), 200]).getD [] ∧ s ∈ (some [(418 : Int)]).getD []) ∧
    (∀ e, autocommit_handler_maker false (some [418, 200]) (some [418]) "k" =
        Except.error e →
      e = PyExc.valueError
        "Extra rollback statuses and commit statuses must not share any status codes") ∧
    ((¬ ∃ s, s ∈ (some [(418 : Int), 200]).getD [] ∧ s ∈ (some [(418 : Int)]).getD []) →
      autocommit_handler_maker false (some [418, 200]) (some [418]) "k" =
        Except.ok (false, (some [(418 : Int), 200]).getD [],
          (some [(418 : Int)]).getD [], "k")) :=
  autocommit_maker_value_error_iff false (some [418, 200]) (some [418]) "k"

/-- Witness for C5 at a fully enabled configuration with no passed
filters. -/
theorem filter_aggregate_spec_witness :
    (∀ f, f ∈ filterAggregate
        (FilterConfig.mk true true true true true true ["status"] ["tag"])
        (fun _ => none) ↔
      ∃ p, p ∈ aggregateParamNames
          (FilterConfig.mk true true true true true true ["status"] ["tag"]) ∧
        (fun _ => (none : Option StatementFilter)) p = some f ∧ validFilter f = true) ∧
    ((FilterConfig.mk true true true true true true ["status"] ["tag"]).id_filter = true →
      "id_filter" ∈ aggregateParamNames
        (FilterConfig.mk true true true true true true ["status"] ["tag"])) ∧
    ((FilterConfig.mk true true true true true true ["status"] ["tag"]).created_at = true →
      "created_filter" ∈ aggregateParamNames
        (FilterConfig.mk true true true true true true ["status"] ["tag"])) ∧
    ((FilterConfig.mk true true true true true true ["status"] ["tag"]).updated_at = true →
      "updated_filter" ∈ aggregateParamNames
        (FilterConfig.mk true true true true true true ["status"] ["tag"])) ∧
    ((FilterConfig.mk true true true true true true ["status"] ["tag"]).search = true →
      "search_filter" ∈ aggregateParamNames
        (FilterConfig.mk true true true true true true ["status"] ["tag"])) ∧
    ((FilterConfig.mk true true true true true true ["status"] ["tag"]).limit_offset = true →
      "limit_offset_filter" ∈ aggregateParamNames
        (FilterConfig.mk true true true true true true ["status"] ["tag"])) ∧
    ((FilterConfig.mk true true true true true true ["status"] ["tag"]).sort_field = true →
      "order_by_filter" ∈ aggregateParamNames
        (FilterConfig.mk true true true true true true ["status"] ["tag"])) ∧
    (∀ fld, fld ∈ (FilterConfig.mk true true true true true true
        ["status"] ["tag"]).in_fields →
      fld ++ "_in_filter" ∈ aggregateParamNames
        (FilterConfig.mk true true true true true true ["status"] ["tag"])) ∧
    (∀ fld, fld ∈ (FilterConfig.mk true true true true true true
        ["status"] ["tag"]).not_in_fields →
      fld ++ "_not_in_filter" ∈ aggregateParamNames
        (FilterConfig.mk true true true true true true ["status"] ["tag"])) ∧
    (∀ f, validFilter f = false ↔
      (∃ fn, f = StatementFilter.searchFilter fn none) ∨
        f = StatementFilter.orderBy none) :=
  filter_aggregate_spec
    (FilterConfig.mk true true true true true true ["status"] ["tag"]) (fun _ => none)

end AdvancedAlchemy
